import Mathlib

/-!
Verification of the Gangwar web game server (`src/src/app.py`, with the
companion iteration `src/app.py` for the named-prostitute visit route).
Each Python function relevant to the checked claims is embedded as an
executable Lean definition; machine integers are modelled as `Int`
(Python integers are unbounded), Python `//` as `Int.fdiv`, and the
random draws consumed by a function are passed in as explicit arguments.
-/

/-! ### Scoring (`calculate_score`, `src/src/app.py` lines 166-180) -/

/-- Embedding of `calculate_score`: money counts 1 point per $1000 above the
$1000 starting cash, each day past day 1 counts 100, each gang war 1000,
each fight 50.  `max 0` clamps the two baseline-offset terms. -/
def calculate_score (money_earned days_survived gang_wars_won fights_won : Int) : Int :=
  let money_score := max 0 (Int.fdiv (money_earned - 1000) 1000)
  let survival_score := max 0 ((days_survived - 1) * 100)
  let gang_war_score := gang_wars_won * 1000
  let fight_score := fights_won * 50
  money_score + survival_score + gang_war_score + fight_score

/-- The score formula as the specification words it (no baseline offsets):
`floor(moneyEarned / 1000) + 100 * daysSurvived + 1000 * gangWarsWon +
50 * fightsWon`.  Kept separate from `calculate_score` so the two can be
compared. -/
def spec_score (money_earned days_survived gang_wars_won fights_won : Int) : Int :=
  Int.fdiv money_earned 1000 + 100 * days_survived
    + 1000 * gang_wars_won + 50 * fights_won

/-! ### Poll-based chat (`add_chat_message` / `get_chat_messages`,
`src/src/app.py` lines 191-231) -/

/-- A stored chat message; the wall-clock fields of the Python dict are
carried as an abstract `timestamp`. -/
structure ChatMsg where
  id : Nat
  player : String
  message : String
  timestamp : Nat
deriving DecidableEq, Repr

def CHAT_MAX_MESSAGES : Nat := 100

/-- Embedding of `add_chat_message`: the new message's id is
`len(chat_messages) + 1` computed before appending; if the list then
exceeds `CHAT_MAX_MESSAGES` the oldest entry is popped. -/
def add_chat_message (msgs : List ChatMsg) (player message : String) (ts : Nat) :
    List ChatMsg :=
  let m : ChatMsg := ⟨msgs.length + 1, player, message, ts⟩
  let appended := msgs ++ [m]
  if CHAT_MAX_MESSAGES < appended.length then appended.drop 1 else appended

/-- Embedding of the `/api/chat/messages` polling endpoint core: return the
stored messages whose id is strictly greater than the caller's cursor. -/
def get_chat_messages (msgs : List ChatMsg) (last_id : Nat) : List ChatMsg :=
  msgs.filter (fun m => decide (last_id < m.id))

/-- The chat store after `n` successive sends into an initially empty
process (sender and text fixed, timestamps increasing). -/
def chatAfter : Nat → List ChatMsg
  | 0 => []
  | n + 1 => add_chat_message (chatAfter n) "p" "hi" n

/-! ### High-score leaderboard (`check_and_update_high_scores`,
`src/src/app.py` lines 482-532) -/

/-- A persisted leaderboard entry (the `HighScore` dataclass). -/
structure HighScore where
  player_name : String
  gang_name : String
  score : Int
  money_earned : Int
  days_survived : Int
  gang_wars_won : Int
  fights_won : Int
  date_achieved : String
deriving DecidableEq, Repr

/-- The identity key of a leaderboard entry: the (player name, gang name)
pair used by the duplicate check. -/
def hsKey (h : HighScore) : String × String := (h.player_name, h.gang_name)

/-- Recursive rendering of the body of `check_and_update_high_scores`
between load and sort: scan for the first entry with the same
(player, gang) pair; if found, replace it exactly when the new score is
strictly higher, otherwise leave it; if no entry matches, append the new
entry at the end. -/
def applyEntry (p g : String) (new : HighScore) : List HighScore → List HighScore
  | [] => [new]
  | h :: t =>
    if h.player_name = p ∧ h.gang_name = g then
      (if h.score < new.score then new else h) :: t
    else
      h :: applyEntry p g new t

/-- Descending-score order used by `high_scores.sort(key=..., reverse=True)`. -/
def hsGE (a b : HighScore) : Prop := b.score ≤ a.score

instance : DecidableRel hsGE := fun a b => inferInstanceAs (Decidable (b.score ≤ a.score))

instance : IsTotal HighScore hsGE := ⟨fun a b => le_total b.score a.score⟩

instance : IsTrans HighScore hsGE := ⟨fun _ _ _ hab hbc => le_trans hbc hab⟩

/-- The slice of `GameState` read by `check_and_update_high_scores`. -/
structure ScoreGS where
  player_name : String
  gang_name : String
  money : Int
  account : Int
  day : Int
deriving DecidableEq, Repr

/-- The entry `check_and_update_high_scores` builds for the current game. -/
def newHighScore (gs : ScoreGS) (gang_wars_won fights_won : Int) (date : String) :
    HighScore :=
  let money_earned := gs.money + gs.account
  { player_name := gs.player_name
    gang_name := gs.gang_name
    score := calculate_score money_earned gs.day gang_wars_won fights_won
    money_earned := money_earned
    days_survived := gs.day
    gang_wars_won := gang_wars_won
    fights_won := fights_won
    date_achieved := date }

/-- Embedding of `check_and_update_high_scores`.  `none` models the early
return (no save) when the player or gang name is empty; otherwise the
result is the list handed to `save_high_scores`: the updated list sorted by
score descending (Python's stable sort, rendered by insertion sort, which
agrees with any stable sort) and truncated to the top 10. -/
def check_and_update_high_scores (gs : ScoreGS) (gang_wars_won fights_won : Int)
    (date : String) (scores : List HighScore) : Option (List HighScore) :=
  if gs.player_name = "" ∨ gs.gang_name = "" then none
  else
    let new := newHighScore gs gang_wars_won fights_won date
    let updated := applyEntry gs.player_name gs.gang_name new scores
    some ((List.insertionSort hsGE updated).take 10)

/-! ### Drug trading (`trade_drugs`, `src/src/app.py` lines 1481-1521) -/

/-- The six tracked substances. -/
inductive DrugType
  | weed | crack | coke | ice | percs | pixie_dust
deriving DecidableEq, Repr

/-- The `Drugs` dataclass (integer kilo counts; Python never clamps them). -/
structure Drugs where
  weed : Int := 0
  crack : Int := 5
  coke : Int := 0
  ice : Int := 0
  percs : Int := 0
  pixie_dust : Int := 0
deriving DecidableEq, Repr

def getDrug (d : Drugs) : DrugType → Int
  | .weed => d.weed
  | .crack => d.crack
  | .coke => d.coke
  | .ice => d.ice
  | .percs => d.percs
  | .pixie_dust => d.pixie_dust

def setDrug (d : Drugs) : DrugType → Int → Drugs
  | .weed, v => { d with weed := v }
  | .crack, v => { d with crack := v }
  | .coke, v => { d with coke := v }
  | .ice, v => { d with ice := v }
  | .percs, v => { d with percs := v }
  | .pixie_dust, v => { d with pixie_dust := v }

/-- The key lookup `drug_type in game_state.drug_prices` combined with
dict indexing: the price table always carries exactly the six drug keys. -/
def parseDrug : String → Option DrugType
  | "weed" => some .weed
  | "crack" => some .crack
  | "coke" => some .coke
  | "ice" => some .ice
  | "percs" => some .percs
  | "pixie_dust" => some .pixie_dust
  | _ => none

/-- The fallback price table hard-coded in `get_game_state` and in the
`GameState` defaults. -/
def defaultPrices : DrugType → Int
  | .weed => 500
  | .crack => 1000
  | .coke => 2000
  | .ice => 1500
  | .percs => 800
  | .pixie_dust => 3000

/-- Max health property of `GameState`: `30 + 10 * (members - 1)`. -/
def max_health (members : Int) : Int := 30 + 10 * (members - 1)

/-- The slice of `GameState` read and written by `trade_drugs`. -/
structure TradeGS where
  money : Int
  members : Int
  health : Int
  drugs : Drugs
deriving DecidableEq, Repr

/-- Embedding of the `trade_drugs` body after the quantity and drug-type
form fields have been read (`action` is the raw form value, `recruitRoll`
is the outcome of the `random.random() < 0.25` draw on big sales).  Buying
checks only that cash covers `price * quantity`; selling checks only that
the held amount is at least `quantity`; neither checks the sign of
`quantity`. -/
def trade_drugs (gs : TradeGS) (prices : DrugType → Int) (action : Option String)
    (d : DrugType) (quantity : Int) (recruitRoll : Bool) : TradeGS :=
  let price := prices d
  if action = some "buy" then
    let cost := price * quantity
    if cost ≤ gs.money then
      { gs with money := gs.money - cost
                drugs := setDrug gs.drugs d (getDrug gs.drugs d + quantity) }
    else gs
  else if action = some "sell" then
    let current := getDrug gs.drugs d
    if quantity ≤ current then
      let revenue := price * quantity
      let gs1 := { gs with drugs := setDrug gs.drugs d (current - quantity)
                           money := gs.money + revenue }
      if 5000 ≤ revenue ∧ recruitRoll then
        let m1 := gs1.members + 1
        { gs1 with members := m1, health := min (max_health m1) (gs1.health + 10) }
      else gs1
    else gs
  else gs

/-! ### Combat defeat resolution (`process_fight_action`,
`src/src/app.py` lines 3282-3390: the `elif game_state.damage >= 30`
branch) -/

/-- The slice of `GameState` the defeat branch touches. -/
structure FightGS where
  money : Int
  lives : Int
  damage : Int
  health : Int
  members : Int
deriving DecidableEq, Repr

/-- ASCII case folding of a character, as `str.lower()` acts on the ASCII
enemy-type strings the routes build. -/
def pyLowerChar (c : Char) : Char :=
  if 'A' ≤ c ∧ c ≤ 'Z' then Char.ofNat (c.toNat + 32) else c

/-- Whether the second character list starts with the first. -/
def leadsWith : List Char → List Char → Bool
  | [], _ => true
  | _ :: _, [] => false
  | a :: ps, b :: bs => a = b && leadsWith ps bs

/-- Whether `pat` occurs contiguously inside the list (Python's `in` on
strings). -/
def hasSub (pat : List Char) : List Char → Bool
  | [] => pat.isEmpty
  | l@(_ :: t) => leadsWith pat l || hasSub pat t

/-- The `"mugger" in enemy_type.lower()` substring test. -/
def muggerIn (enemy_type : String) : Bool :=
  hasSub "mugger".toList (enemy_type.toList.map pyLowerChar)

/-- How the defeat branch ends: mugged (no life lost), a life lost with
lives remaining, or the terminal game-over screen. -/
inductive DefeatOutcome
  | mugged | lifeLost | gameOver
deriving DecidableEq, Repr

/-- Embedding of the `elif game_state.damage >= 30` branch of
`process_fight_action`.  A mugger-class enemy zeroes cash, sets `damage`
to 29 and `health` to 1 and costs no life; any other enemy costs one life,
resets `damage` to 0 and `health` to the constant 30, caps cash at $500,
and routes to game over exactly when the decremented lives are ≤ 0. -/
def process_fight_defeat (gs : FightGS) (enemy_type : String) :
    DefeatOutcome × FightGS :=
  if muggerIn enemy_type then
    (.mugged, { gs with money := 0, damage := 29, health := 1 })
  else
    let livesN := gs.lives - 1
    let moneyN := if 500 < gs.money then 500 else gs.money
    let gsN := { gs with lives := livesN, damage := 0, health := 30, money := moneyN }
    if livesN ≤ 0 then (.gameOver, gsN) else (.lifeLost, gsN)

/-! ### Banking (`process_daily_interest_and_loans`, `src/src/app.py`
lines 434-473, and `bank_transaction`, lines 909-992) -/

/-- The slice of `GameState` the banking code touches. -/
structure BankGS where
  money : Int
  account : Int
  loan : Int
  loan_days : Int
  members : Int
deriving DecidableEq, Repr

/-- Embedding of `process_daily_interest_and_loans`.  The Python
`int(x * 0.08)` / `int(x * 0.15)` products are modelled as the exact
floors `x * 8 / 100` and `x * 15 / 100`; the theorems below evaluate this
function only at magnitudes where the double-precision product rounds to
the same integer.  The returned flag is `loan_shark_attack`: it is raised
whenever, after adding the day's 15% interest and incrementing
`loan_days`, the counter is at or past the threshold (2 days for a
post-interest balance ≤ $50,000, else 3); nothing ever resets the counter
while the loan is outstanding. -/
def process_daily_interest_and_loans (gs : BankGS) : BankGS × Bool :=
  let gs1 :=
    if 0 < gs.account then
      let rate : Int :=
        if 10000 ≤ gs.account then 10 else if 5000 ≤ gs.account then 9 else 8
      { gs with account := gs.account + gs.account * rate / 100 }
    else gs
  if 0 < gs1.loan then
    let interest := gs1.loan * 15 / 100
    let loanN := gs1.loan + interest
    let daysN := gs1.loan_days + 1
    let gs2 := { gs1 with loan := loanN, loan_days := daysN }
    let threshold : Int := if loanN ≤ 50000 then 2 else 3
    (gs2, decide (threshold ≤ daysN))
  else (gs1, false)

/-- The sequence of `loan_shark_attack` flags produced by `n` successive
day rollovers from `gs`. -/
def loanTrace (gs : BankGS) : Nat → List Bool
  | 0 => []
  | n + 1 =>
    let r := process_daily_interest_and_loans gs
    r.2 :: loanTrace r.1 n

/-- Embedding of the `bank_transaction` state update for a parsed action
and amount.  `deposit` and `withdraw` move cash, `loan` hands out one of
the fixed loan sizes when no loan is outstanding, `pay_loan` pays down the
balance and clamps it to 0; every failed guard leaves the state unchanged
(only a flash message differs).  No branch applies interest. -/
def bank_transaction (gs : BankGS) (action : Option String) (amount : Int) : BankGS :=
  if action = some "deposit" then
    if amount ≤ 0 then gs
    else if gs.money < amount then gs
    else { gs with money := gs.money - amount, account := gs.account + amount }
  else if action = some "withdraw" then
    if amount ≤ 0 then gs
    else if gs.account < amount then gs
    else { gs with account := gs.account - amount, money := gs.money + amount }
  else if action = some "loan" then
    let optionAmounts : List Int :=
      [5000, 10000, 25000, 50000, 100000] ++ (if 10 ≤ gs.members then [500000] else [])
    let max_loan : Int := if 10 ≤ gs.members then 500000 else 100000
    if amount ∉ optionAmounts then gs
    else if max_loan < amount then gs
    else if 0 < gs.loan then gs
    else { gs with loan := amount, loan_days := 0, money := gs.money + amount }
  else if action = some "pay_loan" then
    if amount ≤ 0 then gs
    else if gs.money < amount then gs
    else if gs.loan < amount then gs
    else
      let gs1 := { gs with money := gs.money - amount, loan := gs.loan - amount }
      if gs1.loan ≤ 0 then { gs1 with loan := 0 } else gs1
  else gs

/-! ### Shared daily drug prices (`update_daily_drug_prices` lines 65-111,
`update_global_drug_prices` lines 559-576, and the day-rollover branch of
`wander` lines 1342-1360 of `src/src/app.py`) -/

/-- The per-drug price table of the shared economy file. -/
structure Prices where
  weed : Int
  crack : Int
  coke : Int
  ice : Int
  percs : Int
  pixie_dust : Int
deriving DecidableEq, Repr

/-- The shared economy file: the price table plus the `last_update_day`
calendar-day stamp read by the once-per-day gate (absent before the first
gated update). -/
structure EconFile where
  prices : Prices
  last_update_day : Option String
deriving DecidableEq, Repr

/-- Python `int()` applied to a rational (truncation toward zero). -/
def truncInt (q : ℚ) : Int := if q < 0 then Int.ceil q else Int.floor q

/-- Embedding of `update_daily_drug_prices`: every drug's price is set to
`int(base_price * multiplier)` where the multiplier is the random draw for
that drug (the 70%/20%/10% branch only selects the range the draw is taken
from); the base table comes from the drug-config file and is passed in.
The function writes a fresh `last_update` timestamp but never touches the
`last_update_day` gate stamp, and nothing in it consults that stamp. -/
def update_daily_drug_prices (base : Prices) (draw : DrugType → ℚ) (f : EconFile) :
    EconFile :=
  { f with prices :=
      { weed := truncInt (base.weed * draw .weed)
        crack := truncInt (base.crack * draw .crack)
        coke := truncInt (base.coke * draw .coke)
        ice := truncInt (base.ice * draw .ice)
        percs := truncInt (base.percs * draw .percs)
        pixie_dust := truncInt (base.pixie_dust * draw .pixie_dust) } }

/-- Embedding of `update_global_drug_prices`: regenerate via
`update_daily_drug_prices` only when the stored `last_update_day` differs
from today, then stamp today. -/
def update_global_drug_prices (today : String) (base : Prices)
    (draw : DrugType → ℚ) (f : EconFile) : EconFile :=
  if f.last_update_day = some today then f
  else { update_daily_drug_prices base draw f with last_update_day := some today }

/-- Embedding of the price-update call in `wander`'s end-of-day branch:
when the step counter reaches `max_steps` (and no loan-shark attack
intervenes) the route calls `update_daily_drug_prices()` directly, with no
calendar-day gate. -/
def wander_rollover_prices (base : Prices) (draw : DrugType → ℚ) (f : EconFile) :
    EconFile :=
  update_daily_drug_prices base draw f

/-! ### Named-prostitute visits (`visit_prostitutes`, `src/app.py`
lines 1383-1448) -/

/-- The `Prostitute` dataclass of `src/app.py`. -/
structure Prostitute where
  name : String
  price : Int
  description : String
  risk_level : String
  healing_amount : Int
  death_risk : ℚ
  death_method : String
deriving DecidableEq, Repr

/-- The fixed `PROSTITUTES` roster of `src/app.py`. -/
def PROSTITUTES : List Prostitute :=
  [ ⟨"Candy", 50, "low risk, decent healing", "low", 2, 5, "aids"⟩,
    ⟨"Raven", 100, "medium risk, good healing", "medium", 4, 15, "gun"⟩,
    ⟨"Diamond", 200, "high risk, excellent healing", "high", 6, 25, "knife"⟩,
    ⟨"Jasmine", 75, "medium risk, solid healing", "medium", 3, 12, "aids"⟩,
    ⟨"Vixen", 150, "high risk, great healing", "high", 5, 20, "gun"⟩ ]

/-- The slice of the `src/app.py` `GameState` the visit route touches. -/
structure VisitGS where
  money : Int
  damage : Int
deriving DecidableEq, Repr

/-- Embedding of the POST branch of `visit_prostitutes` for a resolved
roster member.  `roll` is the `random.random() * 100` draw.  When the
player cannot afford the price the state is unchanged; otherwise the price
is paid and a roll strictly below the member's `death_risk` discards the
whole session (`none` — permanent death, lives are never consulted), while
a surviving player's `damage` drops by the healing amount, floored at 0. -/
def visit_prostitutes (gs : VisitGS) (p : Prostitute) (roll : ℚ) : Option VisitGS :=
  if gs.money < p.price then some gs
  else
    let gs1 := { gs with money := gs.money - p.price }
    if roll < p.death_risk then none
    else some { gs1 with damage := max 0 (gs1.damage - p.healing_amount) }

/-! ### Form-field parsing and the two trading routes
(`trade_drugs` lines 1481-1492 and `bank_transaction` lines 909-915 of
`src/src/app.py`) -/

/-- Value of a decimal digit run, `none` when empty or non-digit. -/
def digitsVal (cs : List Char) : Option Nat :=
  if cs ≠ [] ∧ cs.all Char.isDigit then
    some (cs.foldl (fun acc c => acc * 10 + (c.toNat - 48)) 0)
  else none

/-- Character-list rendering of `str.strip()`: drop whitespace from both
ends. -/
def pyStrip (cs : List Char) : List Char :=
  ((cs.dropWhile Char.isWhitespace).reverse.dropWhile Char.isWhitespace).reverse

/-- Python's `int(str)` conversion as used on form fields: surrounding
whitespace is stripped, an optional single sign precedes a nonempty digit
run, and anything else raises `ValueError` (`none`).  (Python additionally
accepts underscore digit grouping, which no theorem here exercises.) -/
def pyParseInt (s : String) : Option Int :=
  match pyStrip s.toList with
  | '-' :: rest => (digitsVal rest).map (fun n => -(n : Int))
  | '+' :: rest => (digitsVal rest).map (fun n => (n : Int))
  | cs => (digitsVal cs).map (fun n => (n : Int))

/-- Embedding of the whole `/trade_drugs` handler: read the form fields,
convert the quantity with a bare `int()` (an unparseable string escapes as
an uncaught `ValueError`, modelled by `Except.error`), bounce unknown drug
types to `/crackhouse` unchanged, otherwise run the trade body and
redirect to `/crackhouse`. -/
def trade_drugs_route (gs : TradeGS) (prices : DrugType → Int)
    (action drug_type quantity : Option String) (recruitRoll : Bool) :
    Except String (TradeGS × String) :=
  match (match quantity with | none => some 1 | some s => pyParseInt s) with
  | none => .error "ValueError: invalid literal for int()"
  | some q =>
    match drug_type.bind parseDrug with
    | none => .ok (gs, "crackhouse")
    | some d => .ok (trade_drugs gs prices action d q recruitRoll, "crackhouse")

/-- Embedding of the whole `/bank_transaction` handler: the amount field
goes through a bare `int()` (uncaught `ValueError` on malformed input),
then the action body runs and the response redirects to `/bank`. -/
def bank_transaction_route (gs : BankGS) (action amount : Option String) :
    Except String (BankGS × String) :=
  match (match amount with | none => some 0 | some s => pyParseInt s) with
  | none => .error "ValueError: invalid literal for int()"
  | some a => .ok (bank_transaction gs action a, "bank")

/-! ### Weapon purchases (`buy_weapon`, `src/src/app.py` lines 631-701) -/

/-- The weapon-shop catalogue keys of `buy_weapon`'s price dict. -/
inductive WeaponType
  | pistol | bullets | exploding_bullets | hollow_point_bullets | grenade
  | vampire_bat | missile_launcher | missile | vest_light | vest_medium
  | vest_heavy | ar15 | ghost_gun
deriving DecidableEq, Repr

/-- The `weapon_prices` dict. -/
def weapon_price : WeaponType → Int
  | .pistol => 1200
  | .bullets => 100
  | .exploding_bullets => 2000
  | .hollow_point_bullets => 500
  | .grenade => 1000
  | .vampire_bat => 2500
  | .missile_launcher => 1000000
  | .missile => 100000
  | .vest_light => 5000
  | .vest_medium => 15000
  | .vest_heavy => 25000
  | .ar15 => 10000
  | .ghost_gun => 600

/-- The inventory fields of the `Weapons` dataclass. -/
structure Weapons where
  pistols : Int := 0
  bullets : Int := 0
  grenades : Int := 0
  vampire_bat : Int := 0
  missile_launcher : Int := 0
  missiles : Int := 0
  vest : Int := 0
  knife : Int := 0
  ghost_guns : Int := 0
  ar15 : Int := 0
  exploding_bullets : Int := 0
  hollow_point_bullets : Int := 0
  sword : Int := 0
  axe : Int := 0
  golden_gun : Int := 0
  poison_blowgun : Int := 0
  chain_whip : Int := 0
  plasma_cutter : Int := 0
  pistol_automatic : Bool := false
  ghost_gun_automatic : Bool := false
deriving DecidableEq, Repr

/-- The slice of `GameState` `buy_weapon` touches. -/
structure BuyGS where
  money : Int
  current_score : Int
  weapons : Weapons
deriving DecidableEq, Repr

/-- Embedding of `buy_weapon` for a catalogue weapon and parsed quantity:
the full `price * quantity` is charged; ammo types stock in packs of 50;
each vest tier adds a charge amount fixed by the tier — 5 / 10 / 15 hits —
ignoring the purchased quantity; every other type gains exactly
`quantity`. -/
def buy_weapon (gs : BuyGS) (w : WeaponType) (quantity : Int) : BuyGS :=
  let total_cost := weapon_price w * quantity
  if gs.money < total_cost then gs
  else
    let gs1 := { gs with money := gs.money - total_cost
                         current_score := gs.current_score + 1 }
    let ws := gs1.weapons
    let wsN :=
      match w with
      | .pistol => { ws with pistols := ws.pistols + quantity }
      | .bullets => { ws with bullets := ws.bullets + quantity * 50 }
      | .exploding_bullets =>
          { ws with exploding_bullets := ws.exploding_bullets + quantity * 50 }
      | .hollow_point_bullets =>
          { ws with hollow_point_bullets := ws.hollow_point_bullets + quantity * 50 }
      | .grenade => { ws with grenades := ws.grenades + quantity }
      | .vampire_bat => { ws with vampire_bat := ws.vampire_bat + quantity }
      | .missile_launcher =>
          { ws with missile_launcher := ws.missile_launcher + quantity }
      | .missile => { ws with missiles := ws.missiles + quantity }
      | .vest_light => { ws with vest := ws.vest + 5 }
      | .vest_medium => { ws with vest := ws.vest + 10 }
      | .vest_heavy => { ws with vest := ws.vest + 15 }
      | .ar15 => { ws with ar15 := ws.ar15 + quantity }
      | .ghost_gun => { ws with ghost_guns := ws.ghost_guns + quantity }
    { gs1 with weapons := wsN }

/-- Boolean check that a chat list's ids never decrease from one stored
message to the next. -/
def idsNonDecreasing : List ChatMsg → Bool
  | [] => true
  | [_] => true
  | a :: b :: t => decide (a.id ≤ b.id) && idsNonDecreasing (b :: t)

set_option maxRecDepth 8000

/-! ## Claim C2 — score formula on the canonical inputs -/

/-- C2 counterexample: on moneyEarned = 5000, daysSurvived = 3,
gangWarsWon = 1, fightsWon = 2 the code's `calculate_score` does not
return 1405 (the value the un-offset spec formula predicts): it subtracts
the $1000 / day-1 starting baselines first and returns 1304. -/
theorem calculate_score_not_1405 : ¬ calculate_score 5000 3 1 2 = 1405 := by
  decide

/-- C2 amended: `calculate_score 5000 3 1 2 = 1304`, because the code
offsets the money term by the $1000 starting cash and the day term by the
starting day 1 before scaling; on inputs at or above those baselines it
agrees with the spec's formula applied to the offset inputs. -/
theorem calculate_score_baseline_offset :
    calculate_score 5000 3 1 2 = 1304 ∧
    spec_score 5000 3 1 2 = 1405 ∧
    ∀ m d g f : Int, 1000 ≤ m → 1 ≤ d →
      calculate_score m d g f = spec_score (m - 1000) (d - 1) g f := by
  refine ⟨by decide, by decide, fun m d g f hm hd => ?_⟩
  have h1 : 0 ≤ Int.fdiv (m - 1000) 1000 := by
    apply Int.fdiv_nonneg <;> omega
  have h2 : 0 ≤ (d - 1) * 100 := by omega
  simp only [calculate_score, spec_score]
  rw [max_eq_right h1, max_eq_right h2]
  ring

/-- C2 amended, witnessed at concrete offset inputs. -/
theorem calculate_score_baseline_offset_witness :
    calculate_score 3000 4 0 0 = spec_score 2000 3 0 0 :=
  calculate_score_baseline_offset.2.2 3000 4 0 0 (by decide) (by decide)

/-! ## Claim C4 — chat id monotonicity and retention cap -/

/-- C4 counterexample: ids are not strictly increasing.  The 101st and the
102nd message sent into an empty chat are both assigned id 101, because
each id is `len(chat_messages) + 1` and the length is pinned at 100 by the
retention pop; so the 102nd send refutes strict monotonicity. -/
theorem chat_id_not_strictly_monotonic :
    ¬ ∀ n : Nat,
        (((chatAfter n).getLast?.map ChatMsg.id).getD 0 <
          ((chatAfter (n + 1)).getLast?.map ChatMsg.id).getD 0) := by
  intro h
  exact absurd (h 101) (by decide)

/-- C4 amended: each send stores a message whose id is the pre-append
length plus one and keeps at most 100 messages, so ids grow strictly only
until the cap and then repeat 101 forever; after 150 sends the retained
store is exactly the most recent 100 messages carrying ids 51..100
followed by fifty copies of 101, fetching with cursor 101 (the highest
assigned id) returns nothing, and fetching with cursor 0 returns the whole
retained store, whose ids are non-decreasing but not strictly
ascending. -/
theorem chat_cap_and_cursor :
    (∀ msgs p t ts, msgs.length ≤ CHAT_MAX_MESSAGES →
       (add_chat_message msgs p t ts).length ≤ CHAT_MAX_MESSAGES ∧
       (add_chat_message msgs p t ts).getLast? = some ⟨msgs.length + 1, p, t, ts⟩) ∧
    (chatAfter 150).length = 100 ∧
    (chatAfter 150).map ChatMsg.id = List.range' 51 50 ++ List.replicate 50 101 ∧
    get_chat_messages (chatAfter 150) 101 = [] ∧
    get_chat_messages (chatAfter 150) 0 = chatAfter 150 ∧
    idsNonDecreasing (chatAfter 150) = true := by
  refine ⟨fun msgs p t ts h => ?_, by decide, by decide, by decide, by decide, by decide⟩
  simp only [add_chat_message, List.length_append, List.length_cons, List.length_nil]
  by_cases hc : CHAT_MAX_MESSAGES < msgs.length + (0 + 1)
  · rw [if_pos hc]
    have hlen : msgs.length = CHAT_MAX_MESSAGES := by
      simp [CHAT_MAX_MESSAGES] at *; omega
    have hne : 1 ≤ msgs.length := by rw [hlen]; decide
    constructor
    · simp [List.length_drop]
      omega
    · rw [List.drop_append_of_le_length hne, List.getLast?_concat]
  · rw [if_neg hc]
    constructor
    · simp only [List.length_append, List.length_cons, List.length_nil]
      omega
    · exact List.getLast?_concat _

/-- C4 amended, witnessed: the per-send cap fact applied to the concrete
empty store. -/
theorem chat_cap_and_cursor_witness :
    (add_chat_message [] "a" "b" 0).length ≤ CHAT_MAX_MESSAGES :=
  (chat_cap_and_cursor.1 [] "a" "b" 0 (by decide)).1

/-! ## Claim C1 — damage-threshold defeat resolution -/

/-- C1 counterexample: with a two-member gang (max health 40) the
non-mugger defeat branch resets health to the constant 30, not to the
gang-size-derived max health. -/
theorem fight_defeat_health_not_max :
    (process_fight_defeat ⟨1000, 3, 30, 0, 2⟩ "Rival Gang").2.health = 30 ∧
    max_health 2 = 40 ∧
    (process_fight_defeat ⟨1000, 3, 30, 0, 2⟩ "Rival Gang").2.health ≠
      max_health (process_fight_defeat ⟨1000, 3, 30, 0, 2⟩ "Rival Gang").2.members := by
  refine ⟨by decide, by decide, by decide⟩

/-- C1 amended: once the defeat branch fires (damage at or past 30),
a mugger-class enemy confiscates all cash and leaves the player at
1 effective health with no life lost, while any other enemy costs exactly
one life, resets damage to 0 and health to the constant 30 (which equals
the gang-size-derived max health only for a single-member gang), and the
encounter routes to the terminal game-over state exactly when the
decremented lives are at or below zero; starting from at least one life
the lives never go below zero in this step. -/
theorem process_fight_defeat_spec (gs : FightGS) (enemy_type : String)
    (hdmg : 30 ≤ gs.damage) :
    (muggerIn enemy_type = true →
       (process_fight_defeat gs enemy_type).1 = .mugged ∧
       (process_fight_defeat gs enemy_type).2.money = 0 ∧
       (process_fight_defeat gs enemy_type).2.health = 1 ∧
       (process_fight_defeat gs enemy_type).2.damage = 29 ∧
       (process_fight_defeat gs enemy_type).2.lives = gs.lives) ∧
    (muggerIn enemy_type = false →
       (process_fight_defeat gs enemy_type).1 ≠ .mugged ∧
       (process_fight_defeat gs enemy_type).2.lives = gs.lives - 1 ∧
       (process_fight_defeat gs enemy_type).2.damage = 0 ∧
       (process_fight_defeat gs enemy_type).2.health = 30 ∧
       (gs.members = 1 →
         (process_fight_defeat gs enemy_type).2.health = max_health gs.members) ∧
       ((process_fight_defeat gs enemy_type).1 = .gameOver ↔ gs.lives - 1 ≤ 0) ∧
       (1 ≤ gs.lives → 0 ≤ (process_fight_defeat gs enemy_type).2.lives)) := by
  constructor
  · intro hm
    simp [process_fight_defeat, hm]
  · intro hm
    by_cases hl : gs.lives - 1 ≤ 0
    · simp [process_fight_defeat, hm, hl, max_health]
      omega
    · simp [process_fight_defeat, hm, hl, max_health]
      omega

/-- C1 amended, witnessed on a concrete mugger loss and a concrete rival
loss. -/
theorem process_fight_defeat_spec_witness :
    (process_fight_defeat ⟨1000, 3, 32, 12, 1⟩ "Street Mugger").2.money = 0 ∧
    (process_fight_defeat ⟨1000, 3, 32, 12, 1⟩ "Cops").2.lives = 3 - 1 :=
  ⟨((process_fight_defeat_spec ⟨1000, 3, 32, 12, 1⟩ "Street Mugger"
      (by decide)).1 (by decide)).2.1,
   ((process_fight_defeat_spec ⟨1000, 3, 32, 12, 1⟩ "Cops"
      (by decide)).2 (by decide)).2.1⟩

/-! ## Claim C5 — drug-trade inventory invariants -/

/-- Lookup after update on the drug record. -/
theorem getDrug_setDrug (dr : Drugs) (t t' : DrugType) (v : Int) :
    getDrug (setDrug dr t v) t' = if t' = t then v else getDrug dr t' := by
  cases t <;> cases t' <;> simp [getDrug, setDrug]

/-- C5 counterexample: the handler accepts any submitted integer quantity,
so buying -1 kilos of weed with $1000 on hand at the default $500 price is
committed: cash rises to $1500 and the weed inventory drops to -1, a
negative count. -/
theorem trade_counterexample :
    (trade_drugs ⟨1000, 1, 30, {}⟩ defaultPrices (some "buy") .weed (-1) false).drugs.weed
      = -1 ∧
    (trade_drugs ⟨1000, 1, 30, {}⟩ defaultPrices (some "buy") .weed (-1) false).money
      = 1500 := by
  refine ⟨by decide, by decide⟩

/-- C5 amended: for non-negative submitted quantities the claimed
invariants hold — every inventory count stays non-negative, buying N kilos
at price P deducts exactly N*P and adds exactly N kilos, and a sell is
committed only when the held amount covers the requested quantity
(otherwise the state is untouched). -/
theorem trade_drugs_inventory_spec (gs : TradeGS) (prices : DrugType → Int)
    (action : Option String) (d : DrugType) (q : Int) (roll : Bool)
    (hq : 0 ≤ q) (hinv : ∀ t, 0 ≤ getDrug gs.drugs t) :
    (∀ t, 0 ≤ getDrug (trade_drugs gs prices action d q roll).drugs t) ∧
    (action = some "buy" → prices d * q ≤ gs.money →
       (trade_drugs gs prices action d q roll).money = gs.money - prices d * q ∧
       getDrug (trade_drugs gs prices action d q roll).drugs d
         = getDrug gs.drugs d + q) ∧
    (action = some "sell" → getDrug gs.drugs d < q →
       trade_drugs gs prices action d q roll = gs) ∧
    (action = some "sell" → q ≤ getDrug gs.drugs d →
       getDrug (trade_drugs gs prices action d q roll).drugs d
         = getDrug gs.drugs d - q) := by
  have key : ∀ dr : Drugs, (∀ t, 0 ≤ getDrug dr t) → ∀ v : Int, 0 ≤ v →
      ∀ t, 0 ≤ getDrug (setDrug dr d v) t := by
    intro dr hdr v hv t
    rw [getDrug_setDrug]
    split_ifs
    · exact hv
    · exact hdr t
  refine ⟨?_, ?_, ?_, ?_⟩
  · intro t
    by_cases hb : action = some "buy"
    · by_cases hc : prices d * q ≤ gs.money
      · simp [trade_drugs, hb, hc]
        refine key gs.drugs hinv _ ?_ t
        have := hinv d
        omega
      · simp [trade_drugs, hb, hc]
        exact hinv t
    · by_cases hs : action = some "sell"
      · by_cases hle : q ≤ getDrug gs.drugs d
        · simp [trade_drugs, hb, hs, hle]
          split_ifs with hr
          all_goals refine key gs.drugs hinv _ ?_ t
          all_goals omega
        · simp [trade_drugs, hb, hs, hle]
          exact hinv t
      · simp [trade_drugs, hb, hs]
        exact hinv t
  · intro ha hcost
    simp [trade_drugs, ha, hcost, getDrug_setDrug]
  · intro ha hlt
    have hns : ¬ q ≤ getDrug gs.drugs d := by omega
    have hb : ¬ action = some "buy" := by rw [ha]; simp
    simp [trade_drugs, hb, ha, hns]
  · intro ha hle
    have hb : ¬ action = some "buy" := by rw [ha]; simp
    by_cases hr : 5000 ≤ prices d * q ∧ roll = true
    · simp [trade_drugs, hb, ha, hle, hr, getDrug_setDrug]
    · simp [trade_drugs, hb, ha, hle, hr, getDrug_setDrug]

/-- C5 amended, witnessed: a concrete one-kilo weed purchase. -/
theorem trade_drugs_inventory_spec_witness :
    (trade_drugs ⟨1000, 1, 30, {}⟩ defaultPrices (some "buy") .weed 1 false).money
      = 1000 - defaultPrices DrugType.weed * 1 :=
  ((trade_drugs_inventory_spec ⟨1000, 1, 30, {}⟩ defaultPrices (some "buy") .weed 1 false
      (by decide) (by intro t; cases t <;> decide)).2.1 rfl (by decide)).1

/-! ## Claim C6 — loan lifecycle -/

/-- C6 counterexample: a $10,000 loan left unpaid is attacked by loan
sharks on the second day rollover (after interest the balance is $13,225,
still ≤ $50,000, and `loan_days` hits the threshold 2) and then again on
the third rollover — the encounter repeats on every later rollover while
the loan stays unpaid, not exactly once. -/
theorem loan_shark_counterexample :
    loanTrace ⟨0, 0, 10000, 0, 1⟩ 3 = [false, true, true] := by decide

/-- Field-level description of a day rollover while a loan is outstanding:
15% interest is added, the days counter advances, and the attack flag is
raised exactly when the counter is at or past the threshold derived from
the post-interest balance. -/
theorem process_daily_loan_pos (gs : BankGS) (h : 0 < gs.loan) :
    (process_daily_interest_and_loans gs).1.loan = gs.loan + gs.loan * 15 / 100 ∧
    (process_daily_interest_and_loans gs).1.loan_days = gs.loan_days + 1 ∧
    ((process_daily_interest_and_loans gs).2 = true ↔
       (if gs.loan + gs.loan * 15 / 100 ≤ 50000 then (2 : Int) else 3)
         ≤ gs.loan_days + 1) := by
  by_cases hacc : 0 < gs.account <;>
    simp [process_daily_interest_and_loans, h, hacc, decide_eq_true_iff]

theorem process_daily_loan_nonpos (gs : BankGS) (h : ¬ 0 < gs.loan) :
    (process_daily_interest_and_loans gs).2 = false := by
  by_cases hacc : 0 < gs.account <;>
    simp [process_daily_interest_and_loans, h, hacc]

/-- C6 amended: once a rollover raises the loan-shark attack flag, every
subsequent rollover with the loan still outstanding raises it again (the
days counter is never reset), so the encounter repeats rather than firing
exactly once; paying the full outstanding amount through the `pay_loan`
action clears the balance to exactly 0 and applies no interest in the same
action. -/
theorem loan_lifecycle_amended :
    (∀ gs : BankGS, (process_daily_interest_and_loans gs).2 = true →
       0 < (process_daily_interest_and_loans gs).1.loan →
       (process_daily_interest_and_loans
         (process_daily_interest_and_loans gs).1).2 = true) ∧
    (∀ gs : BankGS, 0 < gs.loan → gs.loan ≤ gs.money →
       bank_transaction gs (some "pay_loan") gs.loan =
         { gs with money := gs.money - gs.loan, loan := 0 }) := by
  constructor
  · intro gs hatk hloan
    by_cases h0 : 0 < gs.loan
    · obtain ⟨hl1, hd1, hf1⟩ := process_daily_loan_pos gs h0
      have hdays1 : 2 ≤ (process_daily_interest_and_loans gs).1.loan_days := by
        have h2 := hf1.mp hatk
        rw [hd1]
        split_ifs at h2 <;> omega
      obtain ⟨hl2, hd2, hf2⟩ := process_daily_loan_pos _ hloan
      apply hf2.mpr
      split_ifs <;> omega
    · rw [process_daily_loan_nonpos gs h0] at hatk
      exact absurd hatk (by decide)
  · intro gs h1 h2
    have ha : ¬ gs.loan ≤ 0 := by omega
    have hb : ¬ gs.money < gs.loan := by omega
    have hc : ¬ gs.loan < gs.loan := by omega
    simp [bank_transaction, ha, hb, hc]

/-- C6 amended, witnessed: the attack repeats from the post-second-rollover
state of a $10,000 loan, and paying a $10,000 loan in full with $20,000 on
hand zeroes it. -/
theorem loan_lifecycle_amended_witness :
    (process_daily_interest_and_loans
        (process_daily_interest_and_loans ⟨0, 0, 13225, 2, 1⟩).1).2 = true ∧
    bank_transaction ⟨20000, 0, 10000, 0, 1⟩ (some "pay_loan") 10000 =
      { money := 20000 - 10000, account := 0, loan := 0, loan_days := 0, members := 1 } :=
  ⟨loan_lifecycle_amended.1 ⟨0, 0, 13225, 2, 1⟩ (by decide) (by decide),
   loan_lifecycle_amended.2 ⟨20000, 0, 10000, 0, 1⟩ (by decide) (by decide)⟩

/-! ## Claim C7 — once-per-calendar-day price regeneration -/

/-- C7 counterexample: with the shared economy file already stamped as
updated today, an in-game day rollover in `wander` still re-randomizes the
shared prices, because that code path calls the ungated
`update_daily_drug_prices` directly: a normal-variance multiplier of 6/5
moves weed from 500 to 600 on the same calendar day. -/
theorem wander_reprices_counterexample :
    (⟨⟨500, 1000, 2000, 1500, 800, 3000⟩, some "2026-10-12"⟩ : EconFile).last_update_day
      = some "2026-10-12" ∧
    (wander_rollover_prices ⟨500, 1000, 2000, 1500, 800, 3000⟩ (fun _ => 6 / 5)
        ⟨⟨500, 1000, 2000, 1500, 800, 3000⟩, some "2026-10-12"⟩).prices.weed = 600 ∧
    (wander_rollover_prices ⟨500, 1000, 2000, 1500, 800, 3000⟩ (fun _ => 6 / 5)
        ⟨⟨500, 1000, 2000, 1500, 800, 3000⟩, some "2026-10-12"⟩).prices.weed ≠
      (⟨⟨500, 1000, 2000, 1500, 800, 3000⟩, some "2026-10-12"⟩ : EconFile).prices.weed := by
  have hval : truncInt (((500 : Int) : ℚ) * (6 / 5)) = 600 := by
    unfold truncInt
    split_ifs with h
    · norm_num at h
    · norm_num
  refine ⟨rfl, hval, ?_⟩
  show truncInt (((500 : Int) : ℚ) * (6 / 5)) ≠ 500
  rw [hval]
  norm_num

/-- C7 amended: only `update_global_drug_prices` is gated by the stored
calendar-day stamp — after it runs, a second gated trigger the same day
leaves the file untouched — while the rollover path inside `wander`
regenerates the price table from the base prices and the fresh draws
without consulting the stamp at all (its output is independent of the
stored file). -/
theorem price_gate_amended :
    (∀ (today : String) (base : Prices) (draw draw' : DrugType → ℚ) (f : EconFile),
       (update_global_drug_prices today base draw f).last_update_day = some today ∧
       update_global_drug_prices today base draw'
           (update_global_drug_prices today base draw f) =
         update_global_drug_prices today base draw f) ∧
    (∀ (base : Prices) (draw : DrugType → ℚ) (f g : EconFile),
       (wander_rollover_prices base draw f).prices =
         (wander_rollover_prices base draw g).prices) := by
  constructor
  · intro today base draw draw' f
    by_cases h : f.last_update_day = some today
    · simp [update_global_drug_prices, h]
    · simp [update_global_drug_prices, h]
  · intro base draw f g
    rfl

/-! ## Claim C8 — paid visits to named prostitutes -/

/-- C8: on a paid visit to a roster member, a death roll strictly below
the member's death-risk percentage discards the whole session state
(permanent death — no lives field is consulted at all), and on any other
roll the player pays the price and the damage counter drops by at most the
member's healing amount, never below 0. -/
theorem visit_prostitutes_spec (gs : VisitGS) (p : Prostitute) (roll : ℚ)
    (hpaid : p.price ≤ gs.money) (hdmg : 0 ≤ gs.damage)
    (hheal : 0 ≤ p.healing_amount) :
    (roll < p.death_risk → visit_prostitutes gs p roll = none) ∧
    (p.death_risk ≤ roll →
       visit_prostitutes gs p roll =
         some ⟨gs.money - p.price, max 0 (gs.damage - p.healing_amount)⟩ ∧
       ∀ gs', visit_prostitutes gs p roll = some gs' →
         0 ≤ gs'.damage ∧ gs.damage - gs'.damage ≤ p.healing_amount ∧
         gs'.damage ≤ gs.damage) := by
  have hm : ¬ gs.money < p.price := by omega
  constructor
  · intro hdie
    simp [visit_prostitutes, hm, hdie]
  · intro hlive
    have hnd : ¬ roll < p.death_risk := by exact not_lt.mpr hlive
    constructor
    · simp [visit_prostitutes, hm, hnd]
    · intro gs' hgs
      simp [visit_prostitutes, hm, hnd] at hgs
      rw [← hgs]
      constructor
      · simp
      constructor
      · simp
        omega
      · simp
        omega

/-- C8, witnessed with Candy (price 50, healing 2, death risk 5%): a roll
of 2 kills, a roll of 50 heals 2 damage off 10. -/
theorem visit_prostitutes_spec_witness :
    visit_prostitutes ⟨100, 10⟩ ⟨"Candy", 50, "low risk, decent healing", "low", 2, 5, "aids"⟩ 2
      = none ∧
    visit_prostitutes ⟨100, 10⟩ ⟨"Candy", 50, "low risk, decent healing", "low", 2, 5, "aids"⟩ 50
      = some ⟨100 - 50, max 0 (10 - 2)⟩ :=
  ⟨(visit_prostitutes_spec ⟨100, 10⟩ ⟨"Candy", 50, "low risk, decent healing", "low", 2, 5, "aids"⟩
      2 (by norm_num) (by norm_num) (by norm_num)).1 (by norm_num),
   ((visit_prostitutes_spec ⟨100, 10⟩ ⟨"Candy", 50, "low risk, decent healing", "low", 2, 5, "aids"⟩
      50 (by norm_num) (by norm_num) (by norm_num)).2 (by norm_num)).1⟩

/-! ## Claim C9 — malformed form fields and safe redirects -/

/-- C9 counterexample: a quantity of "abc" on `/trade_drugs` (and an
amount of "ten" on `/bank_transaction`) hits the bare `int()` conversion
and escapes as an uncaught ValueError — a raw server error, not a safe
redirect. -/
theorem malformed_field_counterexample :
    trade_drugs_route ⟨1000, 1, 30, {}⟩ defaultPrices (some "buy") (some "weed")
        (some "abc") false = .error "ValueError: invalid literal for int()" ∧
    bank_transaction_route ⟨1000, 0, 0, 0, 1⟩ (some "deposit") (some "ten")
      = .error "ValueError: invalid literal for int()" := by
  refine ⟨rfl, rfl⟩

/-- C9 amended: when the quantity/amount field parses as an integer the
handlers always answer with a redirect to the hub page (`/crackhouse`
resp. `/bank`), and an unknown drug type is redirected to `/crackhouse`
with the state unchanged; but a field that does not parse raises an
uncaught ValueError instead of a safe redirect. -/
theorem route_error_handling (gs : TradeGS) (bgs : BankGS)
    (prices : DrugType → Int) (action : Option String) (roll : Bool) :
    (∀ dt qs q, pyParseInt qs = some q →
       ∃ gs', trade_drugs_route gs prices action dt (some qs) roll
         = .ok (gs', "crackhouse")) ∧
    (∀ s qs q, pyParseInt qs = some q → parseDrug s = none →
       trade_drugs_route gs prices action (some s) (some qs) roll
         = .ok (gs, "crackhouse")) ∧
    (∀ dt qs, pyParseInt qs = none →
       trade_drugs_route gs prices action dt (some qs) roll
         = .error "ValueError: invalid literal for int()") ∧
    (∀ as a, pyParseInt as = some a →
       bank_transaction_route bgs action (some as)
         = .ok (bank_transaction bgs action a, "bank")) ∧
    (∀ as, pyParseInt as = none →
       bank_transaction_route bgs action (some as)
         = .error "ValueError: invalid literal for int()") := by
  refine ⟨?_, ?_, ?_, ?_, ?_⟩
  · intro dt qs q hq
    simp only [trade_drugs_route, hq]
    cases hdt : dt.bind parseDrug <;> simp
  · intro s qs q hq hs
    simp [trade_drugs_route, hq, hs]
  · intro dt qs hq
    simp [trade_drugs_route, hq]
  · intro as a ha
    simp [bank_transaction_route, ha]
  · intro as ha
    simp [bank_transaction_route, ha]

/-- C9 amended, witnessed on concrete form inputs. -/
theorem route_error_handling_witness :
    (∃ gs', trade_drugs_route ⟨1000, 1, 30, {}⟩ defaultPrices (some "buy") (some "weed")
        (some "2") false = .ok (gs', "crackhouse")) ∧
    trade_drugs_route ⟨1000, 1, 30, {}⟩ defaultPrices (some "buy") (some "speed")
        (some "2") false = .ok (⟨1000, 1, 30, {}⟩, "crackhouse") ∧
    bank_transaction_route ⟨1000, 0, 0, 0, 1⟩ (some "deposit") (some "oops")
      = .error "ValueError: invalid literal for int()" :=
  ⟨(route_error_handling ⟨1000, 1, 30, {}⟩ ⟨1000, 0, 0, 0, 1⟩ defaultPrices (some "buy")
      false).1 (some "weed") "2" 2 rfl,
   (route_error_handling ⟨1000, 1, 30, {}⟩ ⟨1000, 0, 0, 0, 1⟩ defaultPrices (some "buy")
      false).2.1 "speed" "2" 2 rfl rfl,
   (route_error_handling ⟨1000, 1, 30, {}⟩ ⟨1000, 0, 0, 0, 1⟩ defaultPrices (some "buy")
      false).2.2.2.2 "oops" rfl⟩

/-! ## Claim C10 — vest charges are fixed per tier, other weapons scale -/

/-- C10: a successful vest purchase of any quantity q ≥ 1 charges the full
price times q but adds a tier-fixed charge amount (5 / 10 / 15) to the
vest pool, independent of q, while every non-vest, non-ammo catalogue
weapon gains exactly q units. -/
theorem buy_weapon_spec (gs : BuyGS) (q : Int) (hq : 1 ≤ q) :
    (weapon_price .vest_light * q ≤ gs.money →
       (buy_weapon gs .vest_light q).weapons.vest = gs.weapons.vest + 5 ∧
       (buy_weapon gs .vest_light q).money = gs.money - 5000 * q) ∧
    (weapon_price .vest_medium * q ≤ gs.money →
       (buy_weapon gs .vest_medium q).weapons.vest = gs.weapons.vest + 10 ∧
       (buy_weapon gs .vest_medium q).money = gs.money - 15000 * q) ∧
    (weapon_price .vest_heavy * q ≤ gs.money →
       (buy_weapon gs .vest_heavy q).weapons.vest = gs.weapons.vest + 15 ∧
       (buy_weapon gs .vest_heavy q).money = gs.money - 25000 * q) ∧
    (weapon_price .pistol * q ≤ gs.money →
       (buy_weapon gs .pistol q).weapons.pistols = gs.weapons.pistols + q) ∧
    (weapon_price .grenade * q ≤ gs.money →
       (buy_weapon gs .grenade q).weapons.grenades = gs.weapons.grenades + q) ∧
    (weapon_price .vampire_bat * q ≤ gs.money →
       (buy_weapon gs .vampire_bat q).weapons.vampire_bat
         = gs.weapons.vampire_bat + q) ∧
    (weapon_price .missile_launcher * q ≤ gs.money →
       (buy_weapon gs .missile_launcher q).weapons.missile_launcher
         = gs.weapons.missile_launcher + q) ∧
    (weapon_price .missile * q ≤ gs.money →
       (buy_weapon gs .missile q).weapons.missiles = gs.weapons.missiles + q) ∧
    (weapon_price .ar15 * q ≤ gs.money →
       (buy_weapon gs .ar15 q).weapons.ar15 = gs.weapons.ar15 + q) ∧
    (weapon_price .ghost_gun * q ≤ gs.money →
       (buy_weapon gs .ghost_gun q).weapons.ghost_guns
         = gs.weapons.ghost_guns + q) := by
  refine ⟨?_, ?_, ?_, ?_, ?_, ?_, ?_, ?_, ?_, ?_⟩ <;>
      intro hcost <;>
      unfold buy_weapon <;>
      rw [if_neg (not_lt.mpr hcost)]
  all_goals exact ⟨rfl, rfl⟩

/-- C10, witnessed: buying 2 light vests for $10,000 adds 5 charges, and
buying 2 pistols adds 2 pistols. -/
theorem buy_weapon_spec_witness :
    (buy_weapon ⟨100000, 0, {}⟩ .vest_light 2).weapons.vest = (0 : Int) + 5 ∧
    (buy_weapon ⟨100000, 0, {}⟩ .pistol 2).weapons.pistols = (0 : Int) + 2 :=
  ⟨((buy_weapon_spec ⟨100000, 0, {}⟩ 2 (by norm_num)).1 (by decide)).1,
   (buy_weapon_spec ⟨100000, 0, {}⟩ 2 (by norm_num)).2.2.2.1 (by decide)⟩

/-! ## Claim C3 — leaderboard commit invariants -/

/-- Unfolding of the leaderboard identity key. -/
theorem hsKey_eq_iff (h : HighScore) (p g : String) :
    hsKey h = (p, g) ↔ h.player_name = p ∧ h.gang_name = g := by
  simp [hsKey, Prod.ext_iff]

/-- Everything in the updated list was stored before or is the new
entry. -/
theorem mem_applyEntry {p g : String} {new x : HighScore} :
    ∀ {l : List HighScore}, x ∈ applyEntry p g new l → x ∈ l ∨ x = new := by
  intro l
  induction l with
  | nil => intro h; simp [applyEntry] at h; exact Or.inr h
  | cons a t ih =>
    intro h
    by_cases ha : a.player_name = p ∧ a.gang_name = g
    · rw [applyEntry, if_pos ha] at h
      rcases List.mem_cons.mp h with h1 | h2
      · by_cases hs : a.score < new.score
        · rw [if_pos hs] at h1; exact Or.inr h1
        · rw [if_neg hs] at h1; exact Or.inl (h1 ▸ List.mem_cons_self a t)
      · exact Or.inl (List.mem_cons_of_mem a h2)
    · rw [applyEntry, if_neg ha] at h
      rcases List.mem_cons.mp h with h1 | h2
      · exact Or.inl (h1 ▸ List.mem_cons_self a t)
      · rcases ih h2 with h3 | h4
        · exact Or.inl (List.mem_cons_of_mem a h3)
        · exact Or.inr h4

/-- The find-replace-or-append scan preserves key distinctness. -/
theorem applyEntry_pairwise_key {p g : String} {new : HighScore}
    (hknew : hsKey new = (p, g)) :
    ∀ {l : List HighScore}, l.Pairwise (fun a b => hsKey a ≠ hsKey b) →
      (applyEntry p g new l).Pairwise (fun a b => hsKey a ≠ hsKey b) := by
  intro l
  induction l with
  | nil => intro _; simp [applyEntry]
  | cons a t ih =>
    intro hp
    rcases List.pairwise_cons.mp hp with ⟨hhead, htail⟩
    by_cases ha : a.player_name = p ∧ a.gang_name = g
    · rw [applyEntry, if_pos ha]
      have hka : hsKey a = (p, g) := (hsKey_eq_iff a p g).mpr ha
      by_cases hs : a.score < new.score
      · rw [if_pos hs]
        refine List.pairwise_cons.mpr ⟨?_, htail⟩
        intro x hx
        rw [hknew, ← hka]
        exact hhead x hx
      · rw [if_neg hs]
        exact List.pairwise_cons.mpr ⟨hhead, htail⟩
    · rw [applyEntry, if_neg ha]
      refine List.pairwise_cons.mpr ⟨?_, ih htail⟩
      intro x hx
      rcases mem_applyEntry hx with h1 | h2
      · exact hhead x h1
      · rw [h2, hknew]
        intro hcon
        exact ha ((hsKey_eq_iff a p g).mp hcon)

/-- When the key is already present (uniquely), the scan keeps the length,
stores exactly the better of the old and new entry for that key, and no
other entry carries the key. -/
theorem applyEntry_found {p g : String} {new old : HighScore}
    (hkey : hsKey old = (p, g)) :
    ∀ {l : List HighScore}, l.Pairwise (fun a b => hsKey a ≠ hsKey b) →
      old ∈ l →
      (applyEntry p g new l).length = l.length ∧
      (if old.score < new.score then new else old) ∈ applyEntry p g new l ∧
      ∀ x ∈ applyEntry p g new l, hsKey x = (p, g) →
        x = (if old.score < new.score then new else old) := by
  intro l
  induction l with
  | nil => intro _ hm; exact absurd hm (List.not_mem_nil old)
  | cons a t ih =>
    intro hp hm
    rcases List.pairwise_cons.mp hp with ⟨hhead, htail⟩
    by_cases ha : a.player_name = p ∧ a.gang_name = g
    · have hka : hsKey a = (p, g) := (hsKey_eq_iff a p g).mpr ha
      have hao : a = old := by
        rcases List.mem_cons.mp hm with h1 | h2
        · exact h1.symm
        · exact absurd (hkey ▸ hka) (hhead old h2)
      rw [applyEntry, if_pos ha]
      subst hao
      refine ⟨by simp, List.mem_cons_self _ _, ?_⟩
      intro x hx hkx
      rcases List.mem_cons.mp hx with h1 | h2
      · exact h1
      · exact absurd (hka.trans hkx.symm) (hhead x h2)
    · have hka : hsKey a ≠ (p, g) := fun hc => ha ((hsKey_eq_iff a p g).mp hc)
      have hao : old ∈ t := by
        rcases List.mem_cons.mp hm with h1 | h2
        · exact absurd (h1 ▸ hkey) hka
        · exact h2
      rw [applyEntry, if_neg ha]
      obtain ⟨hlen, hmem, huniq⟩ := ih htail hao
      refine ⟨by simp [hlen], List.mem_cons_of_mem a hmem, ?_⟩
      intro x hx hkx
      rcases List.mem_cons.mp hx with h1 | h2
      · exact absurd (h1 ▸ hkx) hka
      · exact huniq x h2 hkx

/-- C3: every commit through `check_and_update_high_scores`, starting from
a stored list that has at most one entry per (player, gang) pair (and, for
the replacement clause, at most the 10 entries a previous save can leave),
saves at most 10 entries, sorted by score descending, still with at most
one entry per pair; an existing pair's entry is replaced exactly when the
newly computed score is strictly higher, and is kept unchanged on a lower
or equal score. -/
theorem check_and_update_high_scores_invariant
    (gs : ScoreGS) (gww fw : Int) (date : String) (scores out : List HighScore)
    (hpair : scores.Pairwise (fun a b => hsKey a ≠ hsKey b))
    (hsave : check_and_update_high_scores gs gww fw date scores = some out) :
    out.length ≤ 10 ∧
    List.Sorted hsGE out ∧
    out.Pairwise (fun a b => hsKey a ≠ hsKey b) ∧
    ∀ old ∈ scores, hsKey old = (gs.player_name, gs.gang_name) →
      scores.length ≤ 10 →
      ((old.score < (newHighScore gs gww fw date).score →
          newHighScore gs gww fw date ∈ out ∧
          ∀ h ∈ out, hsKey h = (gs.player_name, gs.gang_name) →
            h = newHighScore gs gww fw date) ∧
       ((newHighScore gs gww fw date).score ≤ old.score →
          old ∈ out ∧
          ∀ h ∈ out, hsKey h = (gs.player_name, gs.gang_name) → h = old)) := by
  rw [check_and_update_high_scores] at hsave
  by_cases hname : gs.player_name = "" ∨ gs.gang_name = ""
  · rw [if_pos hname] at hsave
    exact absurd hsave (by simp)
  · rw [if_neg hname] at hsave
    have hout : out = (List.insertionSort hsGE
        (applyEntry gs.player_name gs.gang_name (newHighScore gs gww fw date) scores)).take 10 := by
      exact (Option.some_inj.mp hsave).symm
    have hknew : hsKey (newHighScore gs gww fw date)
        = (gs.player_name, gs.gang_name) := rfl
    have hperm : List.Perm (List.insertionSort hsGE
        (applyEntry gs.player_name gs.gang_name (newHighScore gs gww fw date) scores))
        (applyEntry gs.player_name gs.gang_name (newHighScore gs gww fw date) scores) :=
      List.perm_insertionSort hsGE _
    have hsorted : List.Sorted hsGE (List.insertionSort hsGE
        (applyEntry gs.player_name gs.gang_name (newHighScore gs gww fw date) scores)) :=
      List.sorted_insertionSort hsGE _
    refine ⟨?_, ?_, ?_, ?_⟩
    · rw [hout]
      simp [List.length_take]
    · rw [hout]
      exact hsorted.sublist (List.take_sublist _ _)
    · rw [hout]
      refine List.Pairwise.sublist (List.take_sublist _ _) ?_
      exact ((hperm.pairwise_iff (fun hab => Ne.symm hab)).mpr
        (applyEntry_pairwise_key hknew hpair))
    · intro old hold hkold hlen10
      obtain ⟨hlen, hmem, huniq⟩ := applyEntry_found hkold hpair hold
      have hslen : (List.insertionSort hsGE
          (applyEntry gs.player_name gs.gang_name (newHighScore gs gww fw date) scores)).length
          ≤ 10 := by
        rw [hperm.length_eq, hlen]
        exact hlen10
      have htake : out = List.insertionSort hsGE
          (applyEntry gs.player_name gs.gang_name (newHighScore gs gww fw date) scores) := by
        rw [hout]
        exact List.take_of_length_le hslen
      constructor
      · intro hlt
        have hcond : (if old.score < (newHighScore gs gww fw date).score
            then (newHighScore gs gww fw date) else old) = newHighScore gs gww fw date :=
          if_pos hlt
        rw [hcond] at hmem huniq
        refine ⟨?_, ?_⟩
        · rw [htake, hperm.mem_iff]
          exact hmem
        · intro h hh hkh
          rw [htake, hperm.mem_iff] at hh
          exact huniq h hh hkh
      · intro hge
        have hcond : (if old.score < (newHighScore gs gww fw date).score
            then (newHighScore gs gww fw date) else old) = old :=
          if_neg (by omega)
        rw [hcond] at hmem huniq
        refine ⟨?_, ?_⟩
        · rw [htake, hperm.mem_iff]
          exact hmem
        · intro h hh hkh
          rw [htake, hperm.mem_iff] at hh
          exact huniq h hh hkh

/-- C3, witnessed: a commit for player "A" / gang "G" with $2000 earned
(score 1) over a stored score-0 entry replaces it. -/
theorem check_invariant_witness :
    newHighScore ⟨"A", "G", 2000, 0, 1⟩ 0 0 "d" ∈
      [newHighScore ⟨"A", "G", 2000, 0, 1⟩ 0 0 "d"] :=
  (((check_and_update_high_scores_invariant ⟨"A", "G", 2000, 0, 1⟩ 0 0 "d"
      [⟨"A", "G", 0, 1000, 1, 0, 0, "c"⟩] [newHighScore ⟨"A", "G", 2000, 0, 1⟩ 0 0 "d"]
      (by simp) rfl).2.2.2 ⟨"A", "G", 0, 1000, 1, 0, 0, "c"⟩ (by simp) rfl
      (by simp)).1 (by decide)).1
